import Mathlib

/-!
Verification development for the curve-control thermal-learning integration.

The definitions below are a shallow embedding of the Python modules
`thermal_learning.py` and `__init__.py` of the `curve_control` integration.
Timestamps and temperatures are modelled as rationals; timestamps are
minutes of wall-clock time, so a day is 1440 and the 7-day rolling window
is 10080.  Python dictionaries read with `dict.get` are modelled with
`Option`: an outer `none` means the key is absent.  A Python function that
can raise is modelled as a total function returning the unchanged state on
the exception path (the source catches `ValueError`/`TypeError` and only
logs), or as a sum type when the caller propagates the error.
-/

namespace CurveControl

/-- Learning parameter `MIN_TEMP_CHANGE` from `thermal_learning.py`. -/
def MIN_TEMP_CHANGE : ℚ := 1/2

/-- Learning parameter `MAX_TEMP_CHANGE` from `thermal_learning.py`. -/
def MAX_TEMP_CHANGE : ℚ := 10

/-- Learning parameter `MIN_INTERVAL_MINUTES` from `thermal_learning.py`. -/
def MIN_INTERVAL_MINUTES : ℚ := 20

/-- Learning parameter `MAX_INTERVAL_MINUTES` from `thermal_learning.py`. -/
def MAX_INTERVAL_MINUTES : ℚ := 60

/-- Learning parameter `MIN_SAMPLES_FOR_CALCULATION` from `thermal_learning.py`. -/
def MIN_SAMPLES_FOR_CALCULATION : Nat := 5

/-- Learning parameter `ROLLING_WINDOW_DAYS` from `thermal_learning.py`,
expressed in minutes: 7 days of 1440 minutes. -/
def ROLLING_WINDOW_MINUTES : ℚ := 7 * 1440

/-- `COOL_30MIN` from `const.py`: temperature drop per 30 minutes when the AC is on. -/
def COOL_30MIN : ℚ := 19335/10000

/-- `HEAT_30MIN` from `const.py`: temperature rise per 30 minutes when the AC is off. -/
def HEAT_30MIN : ℚ := 5535/10000

/-- `ThermalDataPoint`: a single thermal measurement, the five stored fields
of the Python class (`temp_change` and `rate_per_30min` are derived). -/
structure ThermalDataPoint where
  timestamp : ℚ
  temp_start : ℚ
  temp_end : ℚ
  hvac_action : String
  interval_minutes : ℚ
deriving DecidableEq, Repr

/-- Derived field `temp_change = temp_end - temp_start`. -/
def ThermalDataPoint.temp_change (p : ThermalDataPoint) : ℚ :=
  p.temp_end - p.temp_start

/-- Derived field `rate_per_30min = temp_change / interval_minutes * 30`
(0 when the interval is not positive, as in the constructor guard). -/
def ThermalDataPoint.rate_per_30min (p : ThermalDataPoint) : ℚ :=
  if p.interval_minutes > 0 then p.temp_change / p.interval_minutes * 30 else 0

/-- The `last_measurement` dictionary: the pending reference observation. -/
structure Measurement where
  timestamp : ℚ
  temperature : ℚ
  hvac_action : String
deriving DecidableEq, Repr

/-- The mutable state of `ThermalLearningManager`: the bounded history, the
pending reference, the three optional learned rates and the time of the
last recomputation. -/
structure ThermalLearningManager where
  thermal_data : List ThermalDataPoint
  last_measurement : Option Measurement
  heating_rate : Option ℚ
  cooling_rate : Option ℚ
  natural_rate : Option ℚ
  last_calculation : Option ℚ
deriving DecidableEq, Repr

/-- A freshly constructed manager: empty history, no reference, all rates unset. -/
def ThermalLearningManager.init : ThermalLearningManager :=
  ⟨[], none, none, none, none, none⟩

/-- `collections.deque` append with a maximum length: the new element goes to
the right and elements are evicted from the left when the bound is exceeded. -/
def dequeAppend (maxlen : Nat) (xs : List ThermalDataPoint) (x : ThermalDataPoint) :
    List ThermalDataPoint :=
  let ys := xs ++ [x]
  if maxlen < ys.length then ys.drop (ys.length - maxlen) else ys

/-- Result of reading a Python attribute that is later passed to `float(...)`:
the key can be absent (`dict.get` default applies), present with a value
convertible to a number, or present with an unconvertible value. -/
inductive AttrVal where
  | missing : AttrVal
  | num : ℚ → AttrVal
  | malformed : AttrVal
deriving DecidableEq, Repr

/-- `float(state.attributes.get('current_temperature', 0))`: a missing key
yields the default `0`; an unconvertible value raises (modelled `none`). -/
def parseTemp : AttrVal → Option ℚ
  | AttrVal.missing => some 0
  | AttrVal.num q => some q
  | AttrVal.malformed => none

/-- The part of a thermostat state event that `_async_process_state_change`
reads: the `current_temperature` and `hvac_action` attributes
(`hvac_action` is taken verbatim, never converted, so it cannot raise;
a missing key defaults to the string `unknown`). -/
structure StateObs where
  current_temperature : AttrVal
  hvac_action : Option String
deriving DecidableEq, Repr

/-- Per-point partition step of `_async_calculate_rates`: the `elif` chain
appending `rate_per_30min` to the heating list (heating mode, rising),
`abs rate_per_30min` to the cooling list (cooling mode, dropping), or
`rate_per_30min` to the natural list (idle or off). -/
def partitionStep (acc : List ℚ × List ℚ × List ℚ) (p : ThermalDataPoint) :
    List ℚ × List ℚ × List ℚ :=
  if p.hvac_action = "heating" ∧ p.temp_change > 0 then
    (acc.1 ++ [p.rate_per_30min], acc.2.1, acc.2.2)
  else if p.hvac_action = "cooling" ∧ p.temp_change < 0 then
    (acc.1, acc.2.1 ++ [|p.rate_per_30min|], acc.2.2)
  else if p.hvac_action = "idle" ∨ p.hvac_action = "off" then
    (acc.1, acc.2.1, acc.2.2 ++ [p.rate_per_30min])
  else
    acc

/-- The loop of `_async_calculate_rates` building the three rate lists. -/
def partitionRates (recent : List ThermalDataPoint) : List ℚ × List ℚ × List ℚ :=
  recent.foldl partitionStep ([], [], [])

/-- Arithmetic mean of a list of rationals (`sum(xs) / len(xs)`). -/
def mean (xs : List ℚ) : ℚ := xs.sum / xs.length

/-- The history points inside the trailing rolling window:
`point.timestamp > now - ROLLING_WINDOW_DAYS`. -/
def recentData (history : List ThermalDataPoint) (now : ℚ) : List ThermalDataPoint :=
  history.filter (fun p => decide (p.timestamp > now - ROLLING_WINDOW_MINUTES))

/-- `_async_calculate_rates`: filter the history to the trailing window,
partition by the `elif` chain, and overwrite each rate whose partition has
at least `MIN_SAMPLES_FOR_CALCULATION` samples with the partition mean;
finally record `last_calculation := now`.  (The save call has no effect on
the in-memory state.) -/
def calculate_rates (now : ℚ) (m : ThermalLearningManager) : ThermalLearningManager :=
  let recent := recentData m.thermal_data now
  let parts := partitionRates recent
  { m with
    heating_rate :=
      if MIN_SAMPLES_FOR_CALCULATION ≤ parts.1.length then some (mean parts.1)
      else m.heating_rate
    cooling_rate :=
      if MIN_SAMPLES_FOR_CALCULATION ≤ parts.2.1.length then some (mean parts.2.1)
      else m.cooling_rate
    natural_rate :=
      if MIN_SAMPLES_FOR_CALCULATION ≤ parts.2.2.length then some (mean parts.2.2)
      else m.natural_rate
    last_calculation := some now }

/-- `_async_process_state_change`: parse the temperature (an unconvertible
value raises and the handler leaves the state untouched), bootstrap the
reference if none exists, otherwise evaluate the interval against the
filter bounds, append a `ThermalDataPoint` on acceptance (recomputing
rates when the hourly gate is open), and finally overwrite the reference
with the new observation. -/
def process_state_change (now : ℚ) (obs : StateObs) (m : ThermalLearningManager) :
    ThermalLearningManager :=
  match parseTemp obs.current_temperature with
  | none => m
  | some current_temp =>
    let hvac_action := obs.hvac_action.getD "unknown"
    match m.last_measurement with
    | none =>
      { m with last_measurement := some ⟨now, current_temp, hvac_action⟩ }
    | some ref =>
      let interval_minutes := now - ref.timestamp
      let m1 :=
        if MIN_INTERVAL_MINUTES ≤ interval_minutes ∧
            interval_minutes ≤ MAX_INTERVAL_MINUTES then
          let temp_change := current_temp - ref.temperature
          if MIN_TEMP_CHANGE ≤ |temp_change| ∧ |temp_change| ≤ MAX_TEMP_CHANGE then
            let pt : ThermalDataPoint :=
              ⟨now, ref.temperature, current_temp, ref.hvac_action, interval_minutes⟩
            let m' := { m with thermal_data := dequeAppend 1000 m.thermal_data pt }
            if m'.last_calculation = none ∨
                (∀ lc ∈ m'.last_calculation, 60 < now - lc) then
              calculate_rates now m'
            else m'
          else m
        else m
      { m1 with last_measurement := some ⟨now, current_temp, hvac_action⟩ }

/-- `get_thermal_rates_with_fallback`: the returned Python 3-tuple
`(heating, cooling, natural)`, modelled as a list so that the arity of the
tuple is part of the value; each unset rate is replaced by its default. -/
def get_thermal_rates_with_fallback (m : ThermalLearningManager) : List ℚ :=
  [ m.heating_rate.getD (HEAT_30MIN * 3),
    m.cooling_rate.getD COOL_30MIN,
    m.natural_rate.getD HEAT_30MIN ]

/-- Outcome of the rate-consumption step of `_async_update_data` in
`__init__.py`: either the two rates bound by the tuple assignment, or the
`ValueError` a Python tuple unpacking raises when the arity differs. -/
inductive UpdateRatesResult where
  | ok : ℚ → ℚ → UpdateRatesResult
  | valueError : UpdateRatesResult
deriving DecidableEq, Repr

/-- The statement `learned_heat_rate, learned_cool_rate =
self.thermal_learning.get_thermal_rates_with_fallback()` of
`_async_update_data`: a two-name tuple assignment succeeds only on a
2-tuple; any other arity raises `ValueError`. -/
def coordinator_update_rates (m : ThermalLearningManager) : UpdateRatesResult :=
  match get_thermal_rates_with_fallback m with
  | [a, b] => UpdateRatesResult.ok a b
  | _ => UpdateRatesResult.valueError

/-- The slot index used by `get_current_setpoint`:
`(now.hour * 2) + (now.minute // 30)`. -/
def slotIndex (hour minute : Nat) : Nat := hour * 2 + minute / 30

/-- The optimizer response fields read by `get_current_setpoint`:
`bestTempActual` may be absent (`dict.get` default `[]`). -/
structure OptResults where
  bestTempActual : Option (List ℚ)
deriving DecidableEq, Repr

/-- `get_current_setpoint` from `__init__.py`: `None` without optimization
results, with an absent or empty `bestTempActual`, or with the slot index
outside the sequence; otherwise the element at the slot index. -/
def get_current_setpoint (optimization_results : Option OptResults)
    (hour minute : Nat) : Option ℚ :=
  match optimization_results with
  | none => none
  | some res =>
    let best_temps := (res.bestTempActual).getD []
    if best_temps = [] then none
    else
      let interval := slotIndex hour minute
      if interval < best_temps.length then best_temps.get? interval else none

/-- One serialized history entry, the five fields written by
`_async_save_data` (the timestamp's ISO text form round-trips exactly, so
it is kept as the rational it denotes). -/
structure StoredPoint where
  timestamp : ℚ
  temp_start : ℚ
  temp_end : ℚ
  hvac_action : String
  interval_minutes : ℚ
deriving DecidableEq, Repr

/-- A stored record as read back by `_async_load_data`.  For each rate key
the outer `Option` is key presence (`none` = key absent, so `dict.get`
falls back) and the inner `Option` is the stored nullable value.  The
legacy keys `heat_up_rate` and `cool_down_rate` are absent in records
written by the current code and present in records of the old two-regime
schema. -/
structure StoredData where
  thermal_data : List StoredPoint
  heating_rate : Option (Option ℚ)
  cooling_rate : Option (Option ℚ)
  heat_up_rate : Option (Option ℚ)
  cool_down_rate : Option (Option ℚ)
  natural_rate : Option (Option ℚ)
  last_calculation : Option (Option ℚ)
deriving DecidableEq, Repr

/-- `_async_save_data`: serialize the history in order and write the three
current-format rate keys (always present, possibly null); no legacy keys
are written. -/
def save_data (m : ThermalLearningManager) : StoredData where
  thermal_data := m.thermal_data.map fun p =>
    ⟨p.timestamp, p.temp_start, p.temp_end, p.hvac_action, p.interval_minutes⟩
  heating_rate := some m.heating_rate
  cooling_rate := some m.cooling_rate
  heat_up_rate := none
  cool_down_rate := none
  natural_rate := some m.natural_rate
  last_calculation := some m.last_calculation

/-- Conversion applied by `_async_load_data` to each stored entry: rebuild
the `ThermalDataPoint` from the five stored fields. -/
def storedToPoint (sp : StoredPoint) : ThermalDataPoint :=
  ⟨sp.timestamp, sp.temp_start, sp.temp_end, sp.hvac_action, sp.interval_minutes⟩

/-- `_async_load_data` applied to a record that was found: each stored entry
is rebuilt into a `ThermalDataPoint` and appended to the bounded deque;
`heating_rate` is read as `data.get('heating_rate',
data.get('heat_up_rate'))` and `cooling_rate` likewise from its legacy
key, while `natural_rate` has no legacy fallback. -/
def load_data (d : StoredData) (m : ThermalLearningManager) : ThermalLearningManager :=
  let loaded := d.thermal_data.map storedToPoint
  { m with
    thermal_data := loaded.foldl (dequeAppend 1000) m.thermal_data
    heating_rate := d.heating_rate.getD (d.heat_up_rate.getD none)
    cooling_rate := d.cooling_rate.getD (d.cool_down_rate.getD none)
    natural_rate := d.natural_rate.getD none
    last_calculation :=
      match d.last_calculation.getD none with
      | some lc => some lc
      | none => m.last_calculation }

/-! ### Helper lemmas -/

/-- Specification-side heating partition: the recent points with heating
mode and rising temperature, mapped to their rates. -/
def heatingRatesOf (l : List ThermalDataPoint) : List ℚ :=
  (l.filter fun p => decide (p.hvac_action = "heating" ∧ p.temp_change > 0)).map
    ThermalDataPoint.rate_per_30min

/-- Specification-side cooling partition: the recent points with cooling
mode and dropping temperature, mapped to the absolute values of their rates. -/
def coolingRatesOf (l : List ThermalDataPoint) : List ℚ :=
  (l.filter fun p => decide (p.hvac_action = "cooling" ∧ p.temp_change < 0)).map
    fun p => |p.rate_per_30min|

/-- Specification-side natural partition: the recent points with idle or off
mode, mapped to their rates. -/
def naturalRatesOf (l : List ThermalDataPoint) : List ℚ :=
  (l.filter fun p => decide (p.hvac_action = "idle" ∨ p.hvac_action = "off")).map
    ThermalDataPoint.rate_per_30min

theorem partitionStep_characterization (l : List ThermalDataPoint)
    (h c n : List ℚ) :
    l.foldl partitionStep (h, c, n) =
      (h ++ heatingRatesOf l, c ++ coolingRatesOf l, n ++ naturalRatesOf l) := by
  induction l generalizing h c n with
  | nil => simp [heatingRatesOf, coolingRatesOf, naturalRatesOf]
  | cons p l ih =>
    simp only [List.foldl_cons, partitionStep]
    by_cases hH : p.hvac_action = "heating" ∧ p.temp_change > 0
    · have hC : ¬ (p.hvac_action = "cooling" ∧ p.temp_change < 0) := by
        rintro ⟨hc, -⟩
        rw [hH.1] at hc
        exact absurd hc (by decide)
      have hN : ¬ (p.hvac_action = "idle" ∨ p.hvac_action = "off") := by
        rintro (hn | hn) <;> simp [hn] at hH
      simp [hH, ih, heatingRatesOf, coolingRatesOf, naturalRatesOf, hC, hN]
    · by_cases hC : p.hvac_action = "cooling" ∧ p.temp_change < 0
      · have hN : ¬ (p.hvac_action = "idle" ∨ p.hvac_action = "off") := by
          rintro (hn | hn) <;> simp [hn] at hC
        simp [hH, hC, hN, ih, heatingRatesOf, coolingRatesOf, naturalRatesOf]
      · by_cases hN : p.hvac_action = "idle" ∨ p.hvac_action = "off"
        · simp [hH, hC, hN, ih, heatingRatesOf, coolingRatesOf, naturalRatesOf]
        · simp [hH, hC, hN, ih, heatingRatesOf, coolingRatesOf, naturalRatesOf]

theorem partitionRates_eq (l : List ThermalDataPoint) :
    partitionRates l = (heatingRatesOf l, coolingRatesOf l, naturalRatesOf l) := by
  simpa using partitionStep_characterization l [] [] []

theorem calculate_rates_thermal_data (now : ℚ) (m : ThermalLearningManager) :
    (calculate_rates now m).thermal_data = m.thermal_data := rfl

theorem calculate_rates_last_measurement (now : ℚ) (m : ThermalLearningManager) :
    (calculate_rates now m).last_measurement = m.last_measurement := rfl

theorem mean_nonneg_of_forall (xs : List ℚ) (h : ∀ x ∈ xs, 0 ≤ x) : 0 ≤ mean xs := by
  unfold mean
  apply div_nonneg
  · exact List.sum_nonneg h
  · exact_mod_cast Nat.zero_le _

theorem dequeAppend_length (maxlen : Nat) (xs : List ThermalDataPoint)
    (x : ThermalDataPoint) :
    (dequeAppend maxlen xs x).length = min (xs.length + 1) maxlen := by
  unfold dequeAppend
  simp only [List.length_append, List.length_singleton]
  split
  · next h => simp [Nat.min_eq_right (le_of_lt h)]; omega
  · next h => simp at h ⊢; omega

theorem dequeAppend_of_lt (maxlen : Nat) (xs : List ThermalDataPoint)
    (x : ThermalDataPoint) (h : xs.length < maxlen) :
    dequeAppend maxlen xs x = xs ++ [x] := by
  unfold dequeAppend
  simp only [List.length_append, List.length_singleton]
  rw [if_neg]
  omega

/-- The spec-side acceptance condition of the Observation Filter: interval
between 20 and 60 minutes and absolute temperature change between 0.5 and
10.0, computed from the new observation's parsed temperature and the
pending reference. -/
def acceptedInterval (now t : ℚ) (ref : Measurement) : Prop :=
  (MIN_INTERVAL_MINUTES ≤ now - ref.timestamp ∧
    now - ref.timestamp ≤ MAX_INTERVAL_MINUTES) ∧
  (MIN_TEMP_CHANGE ≤ |t - ref.temperature| ∧ |t - ref.temperature| ≤ MAX_TEMP_CHANGE)

instance (now t : ℚ) (ref : Measurement) : Decidable (acceptedInterval now t ref) :=
  inferInstanceAs (Decidable ((_ ∧ _) ∧ (_ ∧ _)))

/-- The point `_async_process_state_change` constructs on acceptance. -/
def appendedPoint (now t : ℚ) (ref : Measurement) : ThermalDataPoint :=
  ⟨now, ref.temperature, t, ref.hvac_action, now - ref.timestamp⟩

theorem process_thermal_data_spec (now : ℚ) (obs : StateObs)
    (m : ThermalLearningManager) (t : ℚ)
    (ht : parseTemp obs.current_temperature = some t) :
    (m.last_measurement = none →
      (process_state_change now obs m).thermal_data = m.thermal_data) ∧
    (∀ ref, m.last_measurement = some ref →
      (acceptedInterval now t ref →
        (process_state_change now obs m).thermal_data =
          dequeAppend 1000 m.thermal_data (appendedPoint now t ref)) ∧
      (¬ acceptedInterval now t ref →
        (process_state_change now obs m).thermal_data = m.thermal_data)) := by
  constructor
  · intro hnone
    simp only [process_state_change, ht, hnone]
  · intro ref href
    constructor
    · rintro ⟨⟨h1, h2⟩, h3, h4⟩
      simp only [process_state_change, ht, href]
      rw [if_pos (And.intro h1 h2), if_pos (And.intro h3 h4)]
      split
      · exact calculate_rates_thermal_data _ _
      · rfl
    · intro hnacc
      simp only [process_state_change, ht, href]
      by_cases hc1 : MIN_INTERVAL_MINUTES ≤ now - ref.timestamp ∧
          now - ref.timestamp ≤ MAX_INTERVAL_MINUTES
      · by_cases hc2 : MIN_TEMP_CHANGE ≤ |t - ref.temperature| ∧
            |t - ref.temperature| ≤ MAX_TEMP_CHANGE
        · exact absurd ⟨hc1, hc2⟩ hnacc
        · rw [if_pos hc1, if_neg hc2]
      · rw [if_neg hc1]

theorem process_thermal_data_eq_or_append (now : ℚ) (obs : StateObs)
    (m : ThermalLearningManager) :
    (process_state_change now obs m).thermal_data = m.thermal_data ∨
    ∃ pt, (process_state_change now obs m).thermal_data =
      dequeAppend 1000 m.thermal_data pt := by
  rcases hp : parseTemp obs.current_temperature with _ | t
  · left; unfold process_state_change; rw [hp]
  · rcases hlm : m.last_measurement with _ | ref
    · left; exact (process_thermal_data_spec now obs m t hp).1 hlm
    · by_cases hacc : acceptedInterval now t ref
      · right
        exact ⟨appendedPoint now t ref,
          ((process_thermal_data_spec now obs m t hp).2 ref hlm).1 hacc⟩
      · left; exact ((process_thermal_data_spec now obs m t hp).2 ref hlm).2 hacc

theorem process_thermal_data_length_le (now : ℚ) (obs : StateObs)
    (m : ThermalLearningManager) (h : m.thermal_data.length ≤ 1000) :
    (process_state_change now obs m).thermal_data.length ≤ 1000 := by
  rcases process_thermal_data_eq_or_append now obs m with heq | ⟨pt, heq⟩
  · rw [heq]; exact h
  · rw [heq, dequeAppend_length]; omega

/-! ### Claim theorems -/

/-- C1: a processed state-change observation (with a convertible temperature
value) appends a new `ThermalDataPoint` to the history if and only if a
pending reference already exists and the interval satisfies
20 ≤ interval_minutes ≤ 60 and 0.5 ≤ |temp_change| ≤ 10.0; an observation
failing any bound, or arriving with no reference, creates no history point. -/
theorem process_state_change_appends_iff (now : ℚ) (obs : StateObs)
    (m : ThermalLearningManager) (t : ℚ)
    (ht : parseTemp obs.current_temperature = some t) :
    (m.last_measurement = none →
      (process_state_change now obs m).thermal_data = m.thermal_data) ∧
    (∀ ref, m.last_measurement = some ref →
      (acceptedInterval now t ref →
        (process_state_change now obs m).thermal_data =
          dequeAppend 1000 m.thermal_data (appendedPoint now t ref)) ∧
      (¬ acceptedInterval now t ref →
        (process_state_change now obs m).thermal_data = m.thermal_data)) :=
  process_thermal_data_spec now obs m t ht

/-- Witness for C1 at a concrete accepted interval: reference at time 0,
temperature 70, new observation of 71 °F at minute 30 (interval 30 minutes,
change 1 °F) appends the corresponding point. -/
theorem process_state_change_appends_iff_witness :
    (process_state_change 30 ⟨AttrVal.num 71, some "idle"⟩
        ⟨[], some ⟨0, 70, "idle"⟩, none, none, none, none⟩).thermal_data =
      dequeAppend 1000 [] (appendedPoint 30 71 ⟨0, 70, "idle"⟩) :=
  ((process_state_change_appends_iff 30 ⟨AttrVal.num 71, some "idle"⟩
      ⟨[], some ⟨0, 70, "idle"⟩, none, none, none, none⟩ 71 rfl).2
    ⟨0, 70, "idle"⟩ rfl).1
    (by norm_num [acceptedInterval, MIN_INTERVAL_MINUTES, MAX_INTERVAL_MINUTES,
      MIN_TEMP_CHANGE, MAX_TEMP_CHANGE])

/-- C10: when an interval is accepted, the appended point records the HVAC
mode of the reference observation that started the interval, regardless of
the mode carried by the new observation that ends it. -/
theorem appended_point_uses_reference_mode (now : ℚ) (obs : StateObs)
    (m : ThermalLearningManager) (t : ℚ) (ref : Measurement)
    (ht : parseTemp obs.current_temperature = some t)
    (href : m.last_measurement = some ref)
    (hacc : acceptedInterval now t ref) :
    ∃ pt : ThermalDataPoint,
      (process_state_change now obs m).thermal_data =
        dequeAppend 1000 m.thermal_data pt ∧
      pt.hvac_action = ref.hvac_action ∧
      pt.timestamp = now ∧ pt.temp_start = ref.temperature ∧
      pt.temp_end = t ∧ pt.interval_minutes = now - ref.timestamp :=
  ⟨appendedPoint now t ref,
    ((process_thermal_data_spec now obs m t ht).2 ref href).1 hacc,
    rfl, rfl, rfl, rfl, rfl⟩

/-- Witness for C10: the new observation reports mode `cooling`, but the
point appended for the interval carries the reference's mode `heating`. -/
theorem appended_point_uses_reference_mode_witness :
    ∃ pt : ThermalDataPoint,
      (process_state_change 30 ⟨AttrVal.num 71, some "cooling"⟩
          ⟨[], some ⟨0, 70, "heating"⟩, none, none, none, none⟩).thermal_data =
        dequeAppend 1000 [] pt ∧
      pt.hvac_action = Measurement.hvac_action ⟨0, 70, "heating"⟩ ∧
      pt.timestamp = 30 ∧ pt.temp_start = Measurement.temperature ⟨0, 70, "heating"⟩ ∧
      pt.temp_end = 71 ∧ pt.interval_minutes = 30 - Measurement.timestamp ⟨0, 70, "heating"⟩ :=
  appended_point_uses_reference_mode 30 ⟨AttrVal.num 71, some "cooling"⟩
    ⟨[], some ⟨0, 70, "heating"⟩, none, none, none, none⟩ 71 ⟨0, 70, "heating"⟩
    rfl rfl
    (by norm_num [acceptedInterval, MIN_INTERVAL_MINUTES, MAX_INTERVAL_MINUTES,
      MIN_TEMP_CHANGE, MAX_TEMP_CHANGE])

/-- C9 counterexample: the claim treats a missing temperature value as
malformed and asserts the pending reference is left unchanged, but the code
reads a missing `current_temperature` as the default 0 and processes the
observation normally: with reference (time 0, 72 °F, idle) and a
temperature-less observation at minute 30, the reference is overwritten
(with temperature 0), so it does not stay unchanged. -/
theorem missing_temperature_claim_counterexample :
    (process_state_change 30 ⟨AttrVal.missing, some "idle"⟩
        ⟨[], some ⟨0, 72, "idle"⟩, none, none, none, none⟩).last_measurement ≠
      some (Measurement.mk 0 72 "idle") := by
  have hstep : (process_state_change 30 ⟨AttrVal.missing, some "idle"⟩
      ⟨[], some ⟨0, 72, "idle"⟩, none, none, none, none⟩).last_measurement =
      some (Measurement.mk 30 0 "idle") := by
    simp only [process_state_change, parseTemp, Option.getD_some]
  rw [hstep]
  simp [Measurement.mk.injEq]

/-- C9 amended: an observation whose temperature value is present but not
convertible to a number raises no error and leaves the whole manager state
unchanged — no history point is appended and the pending reference is kept.
(A missing temperature value is instead read as the default 0 and the
observation is processed normally.) -/
theorem malformed_temperature_discarded (now : ℚ) (obs : StateObs)
    (m : ThermalLearningManager) (h : obs.current_temperature = AttrVal.malformed) :
    process_state_change now obs m = m := by
  unfold process_state_change
  rw [h]
  rfl

/-- Witness for the amended C9 at a concrete malformed observation. -/
theorem malformed_temperature_discarded_witness :
    process_state_change 30 ⟨AttrVal.malformed, some "idle"⟩
        ⟨[], some ⟨0, 72, "idle"⟩, none, none, none, none⟩ =
      ⟨[], some ⟨0, 72, "idle"⟩, none, none, none, none⟩ :=
  malformed_temperature_discarded 30 ⟨AttrVal.malformed, some "idle"⟩
    ⟨[], some ⟨0, 72, "idle"⟩, none, none, none, none⟩ rfl

/-- C2: a recomputation sets each regime's rate to the arithmetic mean of
`rate_per_30min` over the history points strictly inside the trailing
7-day window that classify to it — heating: mode `heating` with rising
temperature; cooling: mode `cooling` with dropping temperature, absolute
values taken so the cooling mean is nonnegative; natural: mode `idle` or
`off` with any sign — and only when the partition has at least 5 points
(otherwise the previous value is kept); points with mode `heating` and
nonpositive change or mode `cooling` and nonnegative change are in none of
the partitions, hence contribute to no regime. -/
theorem calculate_rates_window_partition_means (now : ℚ)
    (m : ThermalLearningManager) :
    ((calculate_rates now m).heating_rate =
      if MIN_SAMPLES_FOR_CALCULATION ≤
          (heatingRatesOf (recentData m.thermal_data now)).length
      then some (mean (heatingRatesOf (recentData m.thermal_data now)))
      else m.heating_rate) ∧
    ((calculate_rates now m).cooling_rate =
      if MIN_SAMPLES_FOR_CALCULATION ≤
          (coolingRatesOf (recentData m.thermal_data now)).length
      then some (mean (coolingRatesOf (recentData m.thermal_data now)))
      else m.cooling_rate) ∧
    ((calculate_rates now m).natural_rate =
      if MIN_SAMPLES_FOR_CALCULATION ≤
          (naturalRatesOf (recentData m.thermal_data now)).length
      then some (mean (naturalRatesOf (recentData m.thermal_data now)))
      else m.natural_rate) ∧
    0 ≤ mean (coolingRatesOf (recentData m.thermal_data now)) := by
  refine ⟨?_, ?_, ?_, ?_⟩
  · simp only [calculate_rates, partitionRates_eq]
  · simp only [calculate_rates, partitionRates_eq]
  · simp only [calculate_rates, partitionRates_eq]
  · apply mean_nonneg_of_forall
    intro x hx
    simp only [coolingRatesOf, List.mem_map] at hx
    obtain ⟨p, -, rfl⟩ := hx
    exact abs_nonneg _

/-- C7: a recomputation leaves the rate of every regime whose partition in
the trailing 7-day window has fewer than 5 samples exactly as it was (a
previously learned value never regresses), and it touches neither the
history nor the pending reference. -/
theorem calculate_rates_keeps_sparse_regimes (now : ℚ)
    (m : ThermalLearningManager) :
    ((heatingRatesOf (recentData m.thermal_data now)).length <
        MIN_SAMPLES_FOR_CALCULATION →
      (calculate_rates now m).heating_rate = m.heating_rate) ∧
    ((coolingRatesOf (recentData m.thermal_data now)).length <
        MIN_SAMPLES_FOR_CALCULATION →
      (calculate_rates now m).cooling_rate = m.cooling_rate) ∧
    ((naturalRatesOf (recentData m.thermal_data now)).length <
        MIN_SAMPLES_FOR_CALCULATION →
      (calculate_rates now m).natural_rate = m.natural_rate) ∧
    (calculate_rates now m).thermal_data = m.thermal_data ∧
    (calculate_rates now m).last_measurement = m.last_measurement := by
  refine ⟨?_, ?_, ?_, rfl, rfl⟩
  · intro h
    simp only [calculate_rates, partitionRates_eq]
    rw [if_neg (by omega)]
  · intro h
    simp only [calculate_rates, partitionRates_eq]
    rw [if_neg (by omega)]
  · intro h
    simp only [calculate_rates, partitionRates_eq]
    rw [if_neg (by omega)]

/-- Witness for C7 at the fresh manager (all window partitions empty). -/
theorem calculate_rates_keeps_sparse_regimes_witness :
    (calculate_rates 0 ThermalLearningManager.init).heating_rate =
      ThermalLearningManager.init.heating_rate ∧
    (calculate_rates 0 ThermalLearningManager.init).cooling_rate =
      ThermalLearningManager.init.cooling_rate ∧
    (calculate_rates 0 ThermalLearningManager.init).natural_rate =
      ThermalLearningManager.init.natural_rate :=
  ⟨(calculate_rates_keeps_sparse_regimes 0 ThermalLearningManager.init).1
      (by decide),
   (calculate_rates_keeps_sparse_regimes 0 ThermalLearningManager.init).2.1
      (by decide),
   (calculate_rates_keeps_sparse_regimes 0 ThermalLearningManager.init).2.2.1
      (by decide)⟩

/-- C4 (code bug): the claim says every coordinator data update consumes
the fallback accessor's result without error, but the accessor returns a
3-tuple `(heating, cooling, natural)` while `_async_update_data` unpacks
it into exactly two variables, so the tuple assignment raises `ValueError`
for every manager state — the update aborts (`UpdateFailed`) and no request
carrying `heatUpRate`/`coolDownRate` is ever built on this path. -/
theorem coordinator_update_rates_always_valueError (m : ThermalLearningManager) :
    coordinator_update_rates m = UpdateRatesResult.valueError := rfl

/-- C8: the setpoint selector computes slot index `hour*2 + minute/30`
(14:35 yields 29), returns the element at that index of the returned
per-slot sequence, and returns `None` when there are no optimization
results, the sequence is absent or empty, or the index is out of range. -/
theorem get_current_setpoint_slot_selection :
    slotIndex 14 35 = 29 ∧
    (∀ hour minute : Nat, get_current_setpoint none hour minute = none) ∧
    (∀ hour minute : Nat,
      get_current_setpoint (some ⟨none⟩) hour minute = none) ∧
    (∀ hour minute : Nat,
      get_current_setpoint (some ⟨some []⟩) hour minute = none) ∧
    (∀ (temps : List ℚ) (hour minute : Nat),
      (slotIndex hour minute < temps.length →
        get_current_setpoint (some ⟨some temps⟩) hour minute =
          temps.get? (slotIndex hour minute)) ∧
      (temps.length ≤ slotIndex hour minute →
        get_current_setpoint (some ⟨some temps⟩) hour minute = none)) := by
  refine ⟨rfl, fun _ _ => rfl, fun _ _ => rfl, fun _ _ => rfl,
    fun temps hour minute => ⟨?_, ?_⟩⟩
  · intro hlt
    have hne : temps ≠ [] := by
      intro hnil
      rw [hnil] at hlt
      simp at hlt
    unfold get_current_setpoint
    simp only [Option.getD_some]
    rw [if_neg hne, if_pos hlt]
  · intro hge
    cases temps with
    | nil => rfl
    | cons a as =>
      unfold get_current_setpoint
      simp only [Option.getD_some]
      rw [if_neg (by simp), if_neg (by omega)]

/-- Witness for C8: a 3-slot sequence queried at 00:35 selects slot 1. -/
theorem get_current_setpoint_slot_selection_witness :
    get_current_setpoint (some ⟨some [(70 : ℚ), 71, 72]⟩) 0 35 =
      [(70 : ℚ), 71, 72].get? (slotIndex 0 35) :=
  (get_current_setpoint_slot_selection.2.2.2.2 [70, 71, 72] 0 35).1 (by decide)

/-- C5: starting from any manager whose history is within capacity,
processing any sequence of state-change events leaves at most 1000 points
in the history, and an insertion into a full (1000-point) history evicts
exactly the oldest point (FIFO: the head of the deque is dropped and the
new point appended at the tail). -/
theorem history_bounded_and_fifo :
    (∀ (events : List (ℚ × StateObs)) (m : ThermalLearningManager),
      m.thermal_data.length ≤ 1000 →
      (events.foldl (fun s e => process_state_change e.1 e.2 s)
          m).thermal_data.length ≤ 1000) ∧
    (∀ (xs : List ThermalDataPoint) (x : ThermalDataPoint),
      xs.length = 1000 → dequeAppend 1000 xs x = xs.drop 1 ++ [x]) := by
  constructor
  · intro events
    induction events with
    | nil => exact fun m h => h
    | cons e es ih =>
      intro m h
      simp only [List.foldl_cons]
      exact ih _ (process_thermal_data_length_le e.1 e.2 m h)
  · intro xs x hlen
    unfold dequeAppend
    rw [if_pos (by simp [hlen])]
    have h1 : (xs ++ [x]).length - 1000 = 1 := by simp [hlen]
    rw [h1]
    exact List.drop_append_of_le_length (by omega)

/-- Witness for C5: one processed event from the fresh manager keeps the
bound, and appending to a full history of 1000 identical points drops the
head and appends the new point at the tail. -/
theorem history_bounded_and_fifo_witness :
    (([((30 : ℚ), (⟨AttrVal.num 71, some "idle"⟩ : StateObs))].foldl
        (fun s e => process_state_change e.1 e.2 s)
        ThermalLearningManager.init).thermal_data.length ≤ 1000) ∧
    dequeAppend 1000 (List.replicate 1000 ⟨0, 70, 71, "idle", 30⟩)
        ⟨1, 70, 71, "idle", 30⟩ =
      (List.replicate 1000
          (ThermalDataPoint.mk 0 70 71 "idle" 30)).drop 1 ++
        [⟨1, 70, 71, "idle", 30⟩] :=
  ⟨history_bounded_and_fifo.1
      [((30 : ℚ), (⟨AttrVal.num 71, some "idle"⟩ : StateObs))]
      ThermalLearningManager.init (by decide),
   history_bounded_and_fifo.2 (List.replicate 1000 ⟨0, 70, 71, "idle", 30⟩)
      ⟨1, 70, 71, "idle", 30⟩ (List.length_replicate 1000 _)⟩

theorem foldl_dequeAppend_eq_append (l : List ThermalDataPoint) :
    ∀ acc : List ThermalDataPoint, acc.length + l.length ≤ 1000 →
      l.foldl (dequeAppend 1000) acc = acc ++ l := by
  induction l with
  | nil => intro acc _; simp
  | cons x xs ih =>
    intro acc h
    simp only [List.length_cons] at h
    simp only [List.foldl_cons]
    rw [dequeAppend_of_lt 1000 acc x (by omega)]
    rw [ih (acc ++ [x]) (by simp; omega)]
    simp

theorem storedToPoint_save (p : ThermalDataPoint) :
    storedToPoint ⟨p.timestamp, p.temp_start, p.temp_end, p.hvac_action,
      p.interval_minutes⟩ = p := rfl

theorem map_save_map_load (l : List ThermalDataPoint) :
    (l.map fun p => StoredPoint.mk p.timestamp p.temp_start p.temp_end
        p.hvac_action p.interval_minutes).map storedToPoint = l := by
  induction l with
  | nil => rfl
  | cons p ps ih => simp only [List.map_cons, ih, storedToPoint_save]

/-- C6: loading a record in the legacy two-regime schema (keys
`heat_up_rate` / `cool_down_rate`, no current-format or natural keys)
populates `heating_rate` and `cooling_rate` from the legacy keys, leaves
`natural_rate` unset, and reconstructs every stored history point; and
saving then reloading any manager with at most 1000 history points into a
fresh manager restores the same history points and rates (only the
unpersisted pending reference is reset). -/
theorem storage_roundtrip_legacy_migration :
    (∀ (pts : List StoredPoint) (hu cd : Option ℚ) (lcKey : Option (Option ℚ)),
      pts.length ≤ 1000 →
      (load_data ⟨pts, none, none, some hu, some cd, none, lcKey⟩
          ThermalLearningManager.init).heating_rate = hu ∧
      (load_data ⟨pts, none, none, some hu, some cd, none, lcKey⟩
          ThermalLearningManager.init).cooling_rate = cd ∧
      (load_data ⟨pts, none, none, some hu, some cd, none, lcKey⟩
          ThermalLearningManager.init).natural_rate = none ∧
      (load_data ⟨pts, none, none, some hu, some cd, none, lcKey⟩
          ThermalLearningManager.init).thermal_data = pts.map storedToPoint) ∧
    (∀ m : ThermalLearningManager, m.thermal_data.length ≤ 1000 →
      load_data (save_data m) ThermalLearningManager.init =
        { m with last_measurement := none }) := by
  constructor
  · intro pts hu cd lcKey hlen
    refine ⟨rfl, rfl, rfl, ?_⟩
    simp only [load_data, ThermalLearningManager.init]
    rw [foldl_dequeAppend_eq_append (pts.map storedToPoint) []
      (by simpa using hlen)]
    simp
  · intro m hlen
    obtain ⟨td, lm, hr, cr, nr, lc⟩ := m
    simp only [load_data, save_data, ThermalLearningManager.init,
      Option.getD_some, map_save_map_load]
    rw [foldl_dequeAppend_eq_append td [] (by simpa using hlen)]
    cases lc with
    | none => simp
    | some c => simp

/-- Witness for C6: a concrete legacy record with one stored point and
legacy rates 2 and 3 loads into heating 2, cooling 3, natural unset, with
the point reconstructed; and a concrete manager round-trips through
save/load. -/
theorem storage_roundtrip_legacy_migration_witness :
    ((load_data ⟨[⟨40, 70, 71, "heating", 40⟩], none, none, some (some 2),
          some (some 3), none, none⟩
        ThermalLearningManager.init).heating_rate = some 2 ∧
      (load_data ⟨[⟨40, 70, 71, "heating", 40⟩], none, none, some (some 2),
          some (some 3), none, none⟩
        ThermalLearningManager.init).cooling_rate = some 3 ∧
      (load_data ⟨[⟨40, 70, 71, "heating", 40⟩], none, none, some (some 2),
          some (some 3), none, none⟩
        ThermalLearningManager.init).natural_rate = none ∧
      (load_data ⟨[⟨40, 70, 71, "heating", 40⟩], none, none, some (some 2),
          some (some 3), none, none⟩
        ThermalLearningManager.init).thermal_data =
        [⟨40, 70, 71, "heating", 40⟩].map storedToPoint) ∧
    load_data
        (save_data ⟨[⟨40, 70, 71, "heating", 40⟩], some ⟨80, 71, "idle"⟩,
          some 1, none, none, some 40⟩)
        ThermalLearningManager.init =
      { (⟨[⟨40, 70, 71, "heating", 40⟩], some ⟨80, 71, "idle"⟩,
          some 1, none, none, some 40⟩ : ThermalLearningManager) with
        last_measurement := none } :=
  ⟨storage_roundtrip_legacy_migration.1 [⟨40, 70, 71, "heating", 40⟩]
      (some 2) (some 3) none (by decide),
   storage_roundtrip_legacy_migration.2
      ⟨[⟨40, 70, 71, "heating", 40⟩], some ⟨80, 71, "idle"⟩,
        some 1, none, none, some 40⟩ (by decide)⟩

/-- A stored record with five valid heating intervals (+1 °F over 40
minutes each, rate 3/4 °F per 30 min) and no rate fields, as a previous
run would have left behind. -/
def storedC3 : StoredData :=
  ⟨[⟨40, 70, 71, "heating", 40⟩, ⟨80, 71, 72, "heating", 40⟩,
    ⟨120, 72, 73, "heating", 40⟩, ⟨160, 73, 74, "heating", 40⟩,
    ⟨200, 74, 75, "heating", 40⟩], none, none, none, none, none, none⟩

/-- The manager state after the startup sequence (`async_setup`): load the
stored record, then run the initial recomputation at minute 200. -/
def managerC3 : ThermalLearningManager :=
  calculate_rates 200 (load_data storedC3 ThermalLearningManager.init)

theorem managerC3_loaded :
    load_data storedC3 ThermalLearningManager.init =
      ⟨[⟨40, 70, 71, "heating", 40⟩, ⟨80, 71, 72, "heating", 40⟩,
        ⟨120, 72, 73, "heating", 40⟩, ⟨160, 73, 74, "heating", 40⟩,
        ⟨200, 74, 75, "heating", 40⟩], none, none, none, none, none⟩ := by
  simp only [load_data, storedC3, ThermalLearningManager.init, List.map_cons,
    List.map_nil, storedToPoint]
  rw [foldl_dequeAppend_eq_append _ [] (by simp)]
  simp

theorem managerC3_value :
    managerC3 =
      ⟨[⟨40, 70, 71, "heating", 40⟩, ⟨80, 71, 72, "heating", 40⟩,
        ⟨120, 72, 73, "heating", 40⟩, ⟨160, 73, 74, "heating", 40⟩,
        ⟨200, 74, 75, "heating", 40⟩], none, some (3/4), none, none,
        some 200⟩ := by
  rw [managerC3, managerC3_loaded]
  norm_num [calculate_rates, recentData, partitionRates, partitionStep, mean,
    ThermalDataPoint.temp_change, ThermalDataPoint.rate_per_30min,
    ROLLING_WINDOW_MINUTES, MIN_SAMPLES_FOR_CALCULATION]

/-- C3 counterexample: the claim demands the default whenever the trailing
7-day window holds fewer than 5 samples for a regime, but the accessor
falls back only when a rate was never learned.  After the startup sequence
learns heating rate 3/4 from five points at minutes 40–200, a query more
than 7 days later (minute 10281) finds zero heating samples in the window,
yet the accessor returns the learned 3/4 and not the documented heating
default 3 × HEAT_30MIN. -/
theorem fallback_default_claim_counterexample :
    (heatingRatesOf (recentData managerC3.thermal_data 10281)).length <
      MIN_SAMPLES_FOR_CALCULATION ∧
    (get_thermal_rates_with_fallback managerC3).getD 0 0 ≠ HEAT_30MIN * 3 := by
  rw [managerC3_value]
  constructor
  · norm_num [recentData, heatingRatesOf, MIN_SAMPLES_FOR_CALCULATION,
      ROLLING_WINDOW_MINUTES]
  · norm_num [get_thermal_rates_with_fallback, HEAT_30MIN]

/-- C3 amended: the fallback accessor always returns a full
(heating, cooling, natural) triple of plain rationals, and whenever a
regime's rate is still unset — in particular after a recomputation whose
trailing 7-day partition for that regime has fewer than 5 samples — the
returned component equals the documented default: heating 3 × HEAT_30MIN,
cooling COOL_30MIN, natural HEAT_30MIN.  (A regime whose rate was learned
earlier keeps returning the learned value even when the current window has
fewer than 5 samples.) -/
theorem fallback_defaults_when_unset (now : ℚ) (m : ThermalLearningManager) :
    (get_thermal_rates_with_fallback m).length = 3 ∧
    (m.heating_rate = none →
      (heatingRatesOf (recentData m.thermal_data now)).length <
        MIN_SAMPLES_FOR_CALCULATION →
      (get_thermal_rates_with_fallback (calculate_rates now m)).getD 0 0 =
        HEAT_30MIN * 3) ∧
    (m.cooling_rate = none →
      (coolingRatesOf (recentData m.thermal_data now)).length <
        MIN_SAMPLES_FOR_CALCULATION →
      (get_thermal_rates_with_fallback (calculate_rates now m)).getD 1 0 =
        COOL_30MIN) ∧
    (m.natural_rate = none →
      (naturalRatesOf (recentData m.thermal_data now)).length <
        MIN_SAMPLES_FOR_CALCULATION →
      (get_thermal_rates_with_fallback (calculate_rates now m)).getD 2 0 =
        HEAT_30MIN) := by
  refine ⟨rfl, ?_, ?_, ?_⟩
  · intro hunset hcnt
    simp only [get_thermal_rates_with_fallback, calculate_rates,
      partitionRates_eq]
    rw [if_neg (by omega), hunset]
    rfl
  · intro hunset hcnt
    simp only [get_thermal_rates_with_fallback, calculate_rates,
      partitionRates_eq]
    rw [if_neg (show ¬ MIN_SAMPLES_FOR_CALCULATION ≤
        (coolingRatesOf (recentData m.thermal_data now)).length from by omega),
      hunset]
    rfl
  · intro hunset hcnt
    simp only [get_thermal_rates_with_fallback, calculate_rates,
      partitionRates_eq]
    rw [if_neg (show ¬ MIN_SAMPLES_FOR_CALCULATION ≤
        (naturalRatesOf (recentData m.thermal_data now)).length from by omega),
      hunset]
    rfl

/-- Witness for the amended C3 at the fresh manager: all three regimes are
unset with empty windows, and the accessor returns exactly the three
documented defaults. -/
theorem fallback_defaults_when_unset_witness :
    (get_thermal_rates_with_fallback ThermalLearningManager.init).length = 3 ∧
    (get_thermal_rates_with_fallback
        (calculate_rates 0 ThermalLearningManager.init)).getD 0 0 =
      HEAT_30MIN * 3 ∧
    (get_thermal_rates_with_fallback
        (calculate_rates 0 ThermalLearningManager.init)).getD 1 0 =
      COOL_30MIN ∧
    (get_thermal_rates_with_fallback
        (calculate_rates 0 ThermalLearningManager.init)).getD 2 0 =
      HEAT_30MIN :=
  ⟨(fallback_defaults_when_unset 0 ThermalLearningManager.init).1,
   (fallback_defaults_when_unset 0 ThermalLearningManager.init).2.1
      rfl (by decide),
   (fallback_defaults_when_unset 0 ThermalLearningManager.init).2.2.1
      rfl (by decide),
   (fallback_defaults_when_unset 0 ThermalLearningManager.init).2.2.2
      rfl (by decide)⟩

end CurveControl
